import Mathlib

set_option maxRecDepth 100000
set_option maxHeartbeats 1000000

/-
Verification development for `src/Python/Scale Out/saphana_create_snapshot.py`
(repository cayoso/SAP-HANA-Scripts).

The script is a straight-line coordinator: it discovers (host, mount path)
pairs for SAP HANA data volumes, opens a database-side backup marker,
freezes / snapshots / thaws each volume and then closes the marker.  All
external effects (hdbcli database calls, paramiko ssh commands, purestorage
array calls, stdout prints) are modelled as an explicit event trace, and the
outcomes of the external world are supplied by an `Env` record.  Python
exceptions are modelled by `Except PyErr`; each Python function becomes a
Lean function returning `Res α = Except PyErr α × List Event`.

Faithfulness notes, traced line by line against the source:
* Lines 163-164, 178-179 and 189-190 each end a string-literal assignment
  without a backslash continuation; the following line (`+ dt_string +"';"`,
  `+ str(BackupID) + ...`) is a separate expression statement whose unary `+`
  applied to a `str` raises `TypeError` at run time.  The embedding keeps
  this behaviour: `prepare_saphana_storage_snapshot`,
  `confirm_saphana_storage_snapshot` and `abandon_saphana_storage_snapshot`
  raise before issuing any database command, and the code after those lines
  is unreachable (it is recorded in comments).
* Line 77 tests `connection.isconnected` without calling it, so the method
  object is always truthy and the "Database connection not possible" branch
  is unreachable; connection failure can only surface as an exception from
  `dbapi.connect`, which `Env.dbResult`'s `connectFail` outcome models.
* SQL command texts that span Python backslash continuations are written
  with single spaces; the commands are opaque keys for `Env.dbResult`, so
  only their identity matters.
* `get_volume_serialno` (lines 115-131) runs `df` and `udevadm` over ssh and
  parses the output with a regex and two splits.  No claim depends on that
  parsing, so its outcome (the parsed serial, or the exception the parsing
  raises) is supplied by the oracle `Env.serialOf` and the lookup is
  recorded as a `serialLookup` event.
* The multidb branch of `get_saphana_data_volume_and_hosts` reassigns the
  global `hostaddress` (lines 204-205); the address is connection plumbing
  that no claim observes, so it is not part of the event trace, but the
  `None + "."` TypeError that a NULL nameserver cell would raise is kept.
* `check_pythonversion` is defined in the script but never called; it is
  omitted.
-/

namespace SapHana

/-- Hardcoded module-level configuration, lines 50-61 of the source. -/
def hostaddress : String := "SHN2.puredoes.local"

/-- Line 51. -/
def domainname : String := "puredoes.local"

/-- Line 52. -/
def instancenumber : String := "00"

/-- Line 54: the configured tenant port selector. -/
def port : String := "15"

/-- Python exceptions that the modelled code can raise. -/
inductive PyErr where
  | typeError
  | nameError
  | indexError
  | attributeError
  | dbError
  | sshError
  | arrayError
deriving DecidableEq, Repr

/-- Observable external effects of a run, in order. -/
inductive Event where
  | db (command : String) (portvalue : String)
  | ssh (host : String) (command : String)
  | serialLookup (host : String) (mount : String)
  | arraySnap (volname : String) (suffix : String)
  | print (msg : String)
deriving DecidableEq, Repr

/-- Decidable equality for modelled call results. -/
instance {ε α : Type} [DecidableEq ε] [DecidableEq α] : DecidableEq (Except ε α) := fun a b =>
  match a, b with
  | Except.ok x, Except.ok y =>
      if h : x = y then isTrue (by rw [h])
      else isFalse (fun hh => h (Except.ok.inj hh))
  | Except.error x, Except.error y =>
      if h : x = y then isTrue (by rw [h])
      else isFalse (fun hh => h (Except.error.inj hh))
  | Except.ok x, Except.error y => isFalse (fun hh => Except.noConfusion hh)
  | Except.error x, Except.ok y => isFalse (fun hh => Except.noConfusion hh)

/-- One result row: the `column_values` list, cells possibly SQL NULL. -/
abbrev Row := List (Option String)

/-- Outcome of one database call, chosen by the environment. -/
inductive DbRes where
  | connectFail
  | execFail
  | rows (rs : List Row)
  | noResultSet
deriving Repr

/-- A volume as listed by `purestorage.FlashArray.list_volumes`. -/
structure FAVolume where
  name : String
  serial : String
deriving DecidableEq, Repr

/-- The external world: database answers, ssh reachability, the serial
parsed by `get_volume_serialno`, the array volume list and snapshot ids. -/
structure Env where
  nowString : String
  dbResult : String → String → DbRes
  sshConnectOk : String → Bool
  serialOf : String → String → Except PyErr String
  arrayAuthOk : Bool
  faVolumes : List FAVolume
  faSnapSerial : String → String → String

/-- Result of a modelled Python call: normal value or exception, plus the
events it emitted. -/
abbrev Res (α : Type) := Except PyErr α × List Event

/-- Python `str()` on a value that is either a string or `None`. -/
def pyStr : Option String → String
  | none => "None"
  | some s => s

/-- Python `replace('/', "")`, line 228. -/
def stripSlashes (s : String) : String :=
  ⟨s.data.filter (fun c => c ≠ '/')⟩

/-- Auxiliary for Python's substring operator `in` on lists of characters. -/
def isSubstrCharList (small : List Char) : List Char → Bool
  | [] => small.isEmpty
  | c :: t => small.isPrefixOf (c :: t) || isSubstrCharList small t

/-- Python `small in big` on strings: substring containment. -/
def pyIn (small big : String) : Bool :=
  isSubstrCharList small.data big.data

/-- Python `str.lower()`, character by character (kernel-reducible form
of `String.toLower`). -/
def strToLower (s : String) : String :=
  ⟨s.data.map Char.toLower⟩

/-- Lines 71-88.  Computes `portvalue = "3" + str(instancenumber) +
str(port_number)`, connects and executes.  A result set is returned as
rows; a non-query statement returns Python `None` (modelled `none`).  The
`connection.isconnected` truthiness bug makes the failure print
unreachable, so connection failure is an exception from `dbapi.connect`. -/
def execute_saphana_command (env : Env) (command : String) (port_number : String) :
    Res (Option (List Row)) :=
  match env.dbResult command ("3" ++ instancenumber ++ port_number) with
  | DbRes.connectFail => (Except.error PyErr.dbError, [])
  | DbRes.execFail =>
      (Except.error PyErr.dbError, [Event.db command ("3" ++ instancenumber ++ port_number)])
  | DbRes.rows rs =>
      (Except.ok (some rs), [Event.db command ("3" ++ instancenumber ++ port_number)])
  | DbRes.noResultSet =>
      (Except.ok none, [Event.db command ("3" ++ instancenumber ++ port_number)])

/-- Lines 93-94, whitespace of the backslash continuation normalised. -/
def hdbsqlCheckSAPHANASystemType : String :=
  "SELECT VALUE FROM M_INIFILE_CONTENTS WHERE FILE_NAME = 'global.ini' AND SECTION = 'multidb' AND KEY = 'mode'"

/-- Lines 92-101.  `systemtype[0]` on Python `None` raises TypeError, on an
empty list IndexError; otherwise `"multidb" in systemtype[0]` is a
membership test over the row's column values. -/
def check_saphana_system_type (env : Env) : Res Bool :=
  match execute_saphana_command env hdbsqlCheckSAPHANASystemType port with
  | (Except.error e, t) => (Except.error e, t)
  | (Except.ok none, t) => (Except.error PyErr.typeError, t)
  | (Except.ok (some []), t) => (Except.error PyErr.indexError, t)
  | (Except.ok (some (r :: _)), t) => (Except.ok (r.contains (some "multidb")), t)

/-- Line 213. -/
def hdbGetNameServerhost : String :=
  "SELECT HOST FROM SYS.M_SERVICES WHERE DETAIL = 'master' AND SERVICE_NAME = 'nameserver'"

/-- Lines 212-216: `nameserver_host[0].column_values[0]`, with the same
`None`-subscript / empty-list hazards as above; the cell itself may be
SQL NULL. -/
def get_saphana_nameserver_host (env : Env) : Res (Option String) :=
  match execute_saphana_command env hdbGetNameServerhost port with
  | (Except.error e, t) => (Except.error e, t)
  | (Except.ok none, t) => (Except.error PyErr.typeError, t)
  | (Except.ok (some []), t) => (Except.error PyErr.indexError, t)
  | (Except.ok (some (r :: _)), t) =>
      match r[0]? with
      | none => (Except.error PyErr.indexError, t)
      | some v => (Except.ok v, t)

/-- Lines 199-201, whitespace of the backslash continuations normalised. -/
def hdbGetHANADataVolumeAndHosts : String :=
  "SELECT HOST, STORAGE_ID, PATH, KEY, VALUE FROM SYS.M_ATTACHED_STORAGES WHERE KEY = 'WWID' AND PATH LIKE (SELECT CONCAT(VALUE,'%') FROM M_INIFILE_CONTENTS WHERE FILE_NAME = 'global.ini' AND SECTION = 'persistence' AND KEY = 'basepath_datavolumes' AND VALUE NOT LIKE '$%')"

/-- Lines 198-209.  In multidb mode the master nameserver host is resolved
first (line 205: a NULL cell would raise TypeError on `None + "."`) and
the storage query runs on selector 13; otherwise on the tenant selector. -/
def get_saphana_data_volume_and_hosts (env : Env) : Res (Option (List Row)) :=
  match check_saphana_system_type env with
  | (Except.error e, t) => (Except.error e, t)
  | (Except.ok true, t) =>
      match get_saphana_nameserver_host env with
      | (Except.error e, t2) => (Except.error e, t ++ t2)
      | (Except.ok none, t2) => (Except.error PyErr.typeError, t ++ t2)
      | (Except.ok (some _), t2) =>
          match execute_saphana_command env hdbGetHANADataVolumeAndHosts "13" with
          | (r, t3) => (r, t ++ t2 ++ t3)
  | (Except.ok false, t) =>
      match execute_saphana_command env hdbGetHANADataVolumeAndHosts port with
      | (r, t2) => (r, t ++ t2)

/-- Lines 160-174.  Line 163 ends the assignment statement at the line
break (no backslash), so line 164, `+ dt_string +"';"`, is a separate
expression statement: its unary `+` on a `str` raises TypeError before any
database command is issued.  The rest of the function (lines 165-174) is
therefore unreachable; had it been reached, the single-tenant branch never
assigns `saphana_snapshot_id`, so line 173 would raise UnboundLocalError,
and an empty catalog result would raise IndexError at `[0]`. -/
def prepare_saphana_storage_snapshot (env : Env) : Res (Option String) :=
  let _dt_string := env.nowString
  let _hdbPrepareStorageSnapshot :=
    "BACKUP DATA FOR FULL SYSTEM CREATE SNAPSHOT COMMENT 'SNAPSHOT-"
  (Except.error PyErr.typeError, [])

/-- Lines 177-185.  Same stray-statement pattern as `prepare`: line 178
ends the assignment, line 179 `+ str(BackupID) + ...` raises TypeError, so
no CLOSE SNAPSHOT ... SUCCESSFUL command is ever issued (lines 180-185
unreachable). -/
def confirm_saphana_storage_snapshot (env : Env) (_BackupID : Option String)
    (_EBID : String) : Res Unit :=
  let _hdbConfirmStorageSnapshot :=
    "BACKUP DATA FOR FULL SYSTEM CLOSE SNAPSHOT BACKUP_ID "
  (Except.error PyErr.typeError, [])

/-- Lines 188-196.  Same stray-statement pattern: line 190 raises
TypeError, so no CLOSE SNAPSHOT ... UNSUCCESSFUL command is ever issued
(lines 191-196 unreachable). -/
def abandon_saphana_storage_snapshot (env : Env) (_BackupID : Option String)
    (_EBID : String) : Res Unit :=
  let _hdbAbandonStorageSnapshot :=
    "BACKUP DATA FOR FULL SYSTEM CLOSE SNAPSHOT BACKUP_ID "
  (Except.error PyErr.typeError, [])

/-- Lines 133-138.  The command concatenates the flag directly to
`str(datavolume_mount)`: `"/sbin/fsfreeze --freeze" + str(mount)`, with no
separating space.  `prepare_ssh_connection` may raise on connect. -/
def freeze_filesystem (env : Env) (host : String) (datavolume_mount : Option String) :
    Res Unit :=
  if env.sshConnectOk host then
    (Except.ok (), [Event.ssh host ("/sbin/fsfreeze --freeze" ++ pyStr datavolume_mount)])
  else
    (Except.error PyErr.sshError, [])

/-- Lines 140-145, same shape with `--unfreeze`. -/
def unfreeze_filesystem (env : Env) (host : String) (datavolume_mount : Option String) :
    Res Unit :=
  if env.sshConnectOk host then
    (Except.ok (), [Event.ssh host ("/sbin/fsfreeze --unfreeze" ++ pyStr datavolume_mount)])
  else
    (Except.error PyErr.sshError, [])

/-- Lines 115-131, with the `df`/`udevadm` output parsing supplied by the
`Env.serialOf` oracle (see the header note). -/
def get_volume_serialno (env : Env) (host : String) (datavolume_mount : Option String) :
    Res String :=
  if env.sshConnectOk host then
    match env.serialOf host (pyStr datavolume_mount) with
    | Except.error e => (Except.error e, [Event.serialLookup host (pyStr datavolume_mount)])
    | Except.ok s => (Except.ok s, [Event.serialLookup host (pyStr datavolume_mount)])
  else
    (Except.error PyErr.sshError, [])

/-- The `for key in volumes` scan of lines 150-157: the listed volume's
serial is lowercased (the supplied serial is not) and tested as a
substring of the supplied serial; the first match is snapshotted and the
snapshot's serial returned.  Falling off the loop returns Python `None`. -/
def fa_vol_scan (env : Env) (serialnumber snapshot_suffix : String) :
    List FAVolume → Res (Option String)
  | [] => (Except.ok none, [])
  | v :: vs =>
      if pyIn (strToLower v.serial) serialnumber then
        (Except.ok (some (env.faSnapSerial v.name snapshot_suffix)),
          [Event.arraySnap v.name snapshot_suffix])
      else
        fa_vol_scan env serialnumber snapshot_suffix vs

/-- Lines 147-157.  Authenticates to the array (may raise), lists volumes
and scans them. -/
def create_flasharray_volume_snapshot (env : Env) (serialnumber snapshot_suffix : String) :
    Res (Option String) :=
  if env.arrayAuthOk then
    fa_vol_scan env serialnumber snapshot_suffix env.faVolumes
  else
    (Except.error PyErr.arrayError, [])

/-- Lines 228-229: the snapshot suffix for one volume.  Note line 225
appends `domainname` to the host cell with no dot separator, so `host`
here is already the concatenated value. -/
def mk_vol_snap_suffix (host mount_point : String) (saphana_backup_id : Option String) :
    String :=
  "SAPHANA-" ++ host ++ "-" ++ stripSlashes mount_point ++ "-" ++ pyStr saphana_backup_id

/-- Lines 231-233 given the resolved serial: the snapshot request, the
`volume_snapshot_id` concatenation (which raises TypeError when the
snapshot call returned Python `None`), and the unfreeze. -/
def volume_snap_step (env : Env) (host mp sfx acc serial : String) : Res String :=
  match create_flasharray_volume_snapshot env serial sfx with
  | (Except.error e, t3) => (Except.error e, t3)
  | (Except.ok none, t3) => (Except.error PyErr.typeError, t3)
  | (Except.ok (some snapserial), t3) =>
      match unfreeze_filesystem env host (some mp) with
      | (Except.error e, t4) => (Except.error e, t3 ++ t4)
      | (Except.ok _, t4) => (Except.ok (acc ++ "-" ++ sfx ++ "-" ++ snapserial), t3 ++ t4)

/-- Lines 228-233 after a successful freeze on a non-NULL mount cell:
suffix construction, progress print, serial resolution, then
`volume_snap_step`. -/
def volume_tail (env : Env) (saphana_backup_id : Option String)
    (volume_snapshot_id host mp : String) : Res String :=
  match get_volume_serialno env host (some mp) with
  | (Except.error e, t2) =>
      (Except.error e,
        Event.print ("Creating storage snapshot for mount point : " ++ stripSlashes mp ++
          "on host : " ++ host) :: t2)
  | (Except.ok serial, t2) =>
      match volume_snap_step env host mp (mk_vol_snap_suffix host mp saphana_backup_id)
          volume_snapshot_id serial with
      | (r, t34) =>
          (r, Event.print ("Creating storage snapshot for mount point : " ++ stripSlashes mp ++
            "on host : " ++ host) :: (t2 ++ t34))

/-- Lines 224-233: the body of the per-volume loop for one row `h_v`,
threading the accumulating `volume_snapshot_id` string.
`h_v.column_values[0] + domainname` raises IndexError on a short row and
TypeError on a NULL cell; `mount_point.replace` raises AttributeError on a
NULL cell (but only after the freeze, line 227 precedes line 228); a
`None` return from `create_flasharray_volume_snapshot` raises TypeError at
the string concatenation of lines 231-232, skipping line 233's unfreeze.
The tail of the body after the freeze is factored into `volume_tail` and
`volume_snap_step` above. -/
def process_volume (env : Env) (saphana_backup_id : Option String)
    (volume_snapshot_id : String) (h_v : Row) : Res String :=
  match h_v[0]? with
  | none => (Except.error PyErr.indexError, [])
  | some none => (Except.error PyErr.typeError, [])
  | some (some h0) =>
      match h_v[2]? with
      | none => (Except.error PyErr.indexError, [])
      | some mount_point =>
          match freeze_filesystem env (h0 ++ domainname) mount_point with
          | (Except.error e, t1) => (Except.error e, t1)
          | (Except.ok _, t1) =>
              match mount_point with
              | none => (Except.error PyErr.attributeError, t1)
              | some mp =>
                  match volume_tail env saphana_backup_id volume_snapshot_id
                      (h0 ++ domainname) mp with
                  | (r, trest) => (r, t1 ++ trest)

/-- The `for h_v in hosts_and_vols` loop of lines 224-233. -/
def volume_loop (env : Env) (saphana_backup_id : Option String) :
    List Row → String → Res String
  | [], volume_snapshot_id => (Except.ok volume_snapshot_id, [])
  | h_v :: rest, volume_snapshot_id =>
      match process_volume env saphana_backup_id volume_snapshot_id h_v with
      | (Except.error e, t) => (Except.error e, t)
      | (Except.ok vsi, t) =>
          match volume_loop env saphana_backup_id rest vsi with
          | (r, t2) => (r, t ++ t2)

/-- Lines 223-243: the remainder of the try body once `hosts_and_vols` and
`saphana_backup_id` are bound, together with the bare `except:` handler of
lines 240-243 (on this path `saphana_backup_id` is bound, so the handler's
`is not None` test does not raise).  Iterating a Python `None` result
raises TypeError.  Since `volume_snapshot_id` is always a `str` here, the
guard of line 234 reduces to `saphana_backup_id is not None`.  A handler
whose condition is false swallows the exception (bare except, no
re-raise). -/
def workflow_from_marker (env : Env) (hosts_and_vols : Option (List Row))
    (saphana_backup_id : Option String) : Res Unit :=
  let tryRest : Res Unit :=
    match hosts_and_vols with
    | none => (Except.error PyErr.typeError, [])
    | some rows =>
        match volume_loop env saphana_backup_id rows "" with
        | (Except.error e, t) => (Except.error e, t)
        | (Except.ok vsi, t) =>
            if saphana_backup_id.isSome then
              match confirm_saphana_storage_snapshot env saphana_backup_id vsi with
              | (r, t2) =>
                  (r, t ++ [Event.print ("Confirming storage snapshot with SAP HANA Backup ID : " ++
                    pyStr saphana_backup_id)] ++ t2)
            else
              match abandon_saphana_storage_snapshot env saphana_backup_id "no_value" with
              | (r, t2) =>
                  (r, t ++ [Event.print ("Abandoning storage snapshot with SAP HANA Backup ID : " ++
                    pyStr saphana_backup_id)] ++ t2)
  match tryRest with
  | (Except.ok _, t) => (Except.ok (), t)
  | (Except.error _, t) =>
      if saphana_backup_id.isSome then
        match abandon_saphana_storage_snapshot env saphana_backup_id "no_value" with
        | (Except.ok _, t2) =>
            (Except.ok (), t ++ [Event.print ("Abandoning storage snapshot with SAP HANA Backup ID : " ++
              pyStr saphana_backup_id)] ++ t2)
        | (Except.error e2, t2) =>
            (Except.error e2, t ++ [Event.print ("Abandoning storage snapshot with SAP HANA Backup ID : " ++
              pyStr saphana_backup_id)] ++ t2)
      else
        (Except.ok (), t)

/-- Lines 220-243: the whole module-level try/except workflow.  If
discovery or marker preparation raises, the bare handler's
`saphana_backup_id is not None` test reads a never-assigned module
variable and raises NameError. -/
def main_workflow (env : Env) : Res Unit :=
  match get_saphana_data_volume_and_hosts env with
  | (Except.error _, t) => (Except.error PyErr.nameError, t)
  | (Except.ok hosts_and_vols, t) =>
      match prepare_saphana_storage_snapshot env with
      | (Except.error _, t2) => (Except.error PyErr.nameError, t ++ t2)
      | (Except.ok saphana_backup_id, t2) =>
          match workflow_from_marker env hosts_and_vols saphana_backup_id with
          | (r, t3) => (r, t ++ t2 ++ t3)

end SapHana

namespace SapHana

/-- A concrete discovery row: host SHN2, storage id 2, mount
`/hana/data/mnt00001`, WWID key/value. -/
def row10 : Row :=
  [some "SHN2", some "2", some "/hana/data/mnt00001", some "WWID", some "wwid1"]

/-- A second concrete discovery row for a different host and mount. -/
def rowB : Row :=
  [some "SHN3", some "3", some "/hana/data/mnt00002", some "WWID", some "wwid2"]

/-- Builds a concrete environment: single- or multi-tenant mode value,
discovery rows, FlashArray volume list; ssh and array access succeed, the
parsed device serial is a fixed lowercase value, snapshots get serial
`FA-SNAP-1`. -/
def mkEnv (modeValue : String) (discRows : List Row) (vols : List FAVolume) : Env where
  nowString := "12/10/2026 12:00:00"
  dbResult := fun c _ =>
    if c = hdbsqlCheckSAPHANASystemType then DbRes.rows [[some modeValue]]
    else if c = hdbGetHANADataVolumeAndHosts then DbRes.rows discRows
    else if c = hdbGetNameServerhost then DbRes.rows [[some "SHN1"]]
    else DbRes.noResultSet
  sshConnectOk := fun _ => true
  serialOf := fun _ _ => Except.ok "3624a9370abcdef111111111"
  arrayAuthOk := true
  faVolumes := vols
  faSnapSerial := fun _ _ => "FA-SNAP-1"

/-- Environment whose array has the matching volume for `row10`. -/
def envFA : Env :=
  mkEnv "singledb" [row10] [⟨"SH1-data-1", "3624A9370ABCDEF111111111"⟩]

/-- Environment with no FlashArray volumes: the serial matches nothing, so
the snapshot step returns Python `None` and the loop's concatenation
raises TypeError. -/
def envNoFA : Env := mkEnv "singledb" [] []

/-- Environment for the case-sensitivity counterexample: one volume whose
serial equals the supplied serial up to case. -/
def env5 : Env := mkEnv "singledb" [] [⟨"v1", "ABC"⟩]

end SapHana


namespace SapHana

/-- True exactly on database events carrying a CLOSE SNAPSHOT command,
i.e. a terminal confirm/abandon disposition for a backup marker. -/
def isDbClose : Event → Bool
  | Event.db c _ =>
      ("BACKUP DATA FOR FULL SYSTEM CLOSE SNAPSHOT" : String).data.isPrefixOf c.data
  | _ => false

/-- True exactly on database events. -/
def isDbEvent : Event → Bool
  | Event.db _ _ => true
  | _ => false

/-- True when a database event's port value is the concatenation of the
fixed prefix "3", the instance number, and either selector 13 or the
configured tenant port selector; non-database events pass. -/
def portOkEvent : Event → Bool
  | Event.db _ pv => pv == "3" ++ instancenumber ++ "13" || pv == "3" ++ instancenumber ++ port
  | _ => true

/-- Number of freeze commands issued for a given host and mount value. -/
def countFreeze (t : List Event) (host : String) (mount : Option String) : Nat :=
  t.count (Event.ssh host ("/sbin/fsfreeze --freeze" ++ pyStr mount))

/-- Number of unfreeze commands issued for a given host and mount value. -/
def countUnfreeze (t : List Event) (host : String) (mount : Option String) : Nat :=
  t.count (Event.ssh host ("/sbin/fsfreeze --unfreeze" ++ pyStr mount))

/-- Trace of the aborted volume loop for `row10` under `envNoFA`: freeze,
progress print and serial lookup happen, then the snapshot step's Python
`None` return makes the concatenation raise, so no unfreeze follows. -/
def c2_fail_trace : List Event :=
  [Event.ssh "SHN2puredoes.local" "/sbin/fsfreeze --freeze/hana/data/mnt00001",
   Event.print "Creating storage snapshot for mount point : hanadatamnt00001on host : SHN2puredoes.local",
   Event.serialLookup "SHN2puredoes.local" "/hana/data/mnt00001"]

/-- Full trace of `workflow_from_marker` under `envNoFA` with rows
`[row10, rowB]`: the first volume aborts the loop, the handler prints and
then its abandon attempt raises; `rowB` contributes nothing. -/
def c3_trace : List Event :=
  [Event.ssh "SHN2puredoes.local" "/sbin/fsfreeze --freeze/hana/data/mnt00001",
   Event.print "Creating storage snapshot for mount point : hanadatamnt00001on host : SHN2puredoes.local",
   Event.serialLookup "SHN2puredoes.local" "/hana/data/mnt00001",
   Event.print "Abandoning storage snapshot with SAP HANA Backup ID : 4711"]

/-- Full trace of `workflow_from_marker` under `envFA` with row `row10`
and marker id 4711: the loop completes (freeze through unfreeze), the
guard holds and the confirm branch is entered (its print appears), then
`confirm_saphana_storage_snapshot` raises before issuing any command and
the handler's abandon attempt raises likewise. -/
def c10_trace : List Event :=
  [Event.ssh "SHN2puredoes.local" "/sbin/fsfreeze --freeze/hana/data/mnt00001",
   Event.print "Creating storage snapshot for mount point : hanadatamnt00001on host : SHN2puredoes.local",
   Event.serialLookup "SHN2puredoes.local" "/hana/data/mnt00001",
   Event.arraySnap "SH1-data-1" "SAPHANA-SHN2puredoes.local-hanadatamnt00001-4711",
   Event.ssh "SHN2puredoes.local" "/sbin/fsfreeze --unfreeze/hana/data/mnt00001",
   Event.print "Confirming storage snapshot with SAP HANA Backup ID : 4711",
   Event.print "Abandoning storage snapshot with SAP HANA Backup ID : 4711"]

/-- Strings with equal character data are equal. -/
theorem str_data_inj {a b : String} (h : a.data = b.data) : a = b := by
  cases a
  cases b
  exact congrArg String.mk h

/-- Left cancellation for string append. -/
theorem str_append_left_cancel {a x y : String} (h : a ++ x = a ++ y) : x = y := by
  apply str_data_inj
  have hd : a.data ++ x.data = a.data ++ y.data := by
    rw [← String.data_append, ← String.data_append, h]
  exact List.append_cancel_left hd

/-- Left cancellation for string append, as an iff. -/
theorem strApp_cancel_iff (a x y : String) : a ++ x = a ++ y ↔ x = y :=
  ⟨str_append_left_cancel, fun h => by rw [h]⟩

/-- A freeze command string is never an unfreeze command string, whatever
the appended mount text is: the characters at index 17 differ. -/
theorem fz_ne_ufz (x y : String) :
    "/sbin/fsfreeze --freeze" ++ x ≠ "/sbin/fsfreeze --unfreeze" ++ y := by
  intro h
  have hd : ("/sbin/fsfreeze --freeze" : String).data ++ x.data
      = ("/sbin/fsfreeze --unfreeze" : String).data ++ y.data := by
    rw [← String.data_append, ← String.data_append, h]
  have h17 := congrArg (fun l => l[17]?) hd
  simp only at h17
  rw [List.getElem?_append_left (by decide), List.getElem?_append_left (by decide)] at h17
  exact absurd h17 (by decide)

/-- Counting in a singleton list. -/
theorem count_one {α : Type} [DecidableEq α] (a b : α) :
    [b].count a = if b = a then 1 else 0 := by
  by_cases h : b = a <;> simp [List.count_cons, h]

/-- Every event of one `execute_saphana_command` call satisfies any
predicate that holds of the issued command/port pair. -/
theorem exec_all (env : Env) (c p : String) (P : Event → Bool)
    (h : P (Event.db c ("3" ++ instancenumber ++ p)) = true) :
    (execute_saphana_command env c p).2.all P = true := by
  unfold execute_saphana_command
  cases env.dbResult c ("3" ++ instancenumber ++ p) <;> simp [h]

/-- Trace predicate transport for `check_saphana_system_type`. -/
theorem check_all (env : Env) (P : Event → Bool)
    (h : P (Event.db hdbsqlCheckSAPHANASystemType ("3" ++ instancenumber ++ port)) = true) :
    (check_saphana_system_type env).2.all P = true := by
  have hx := exec_all env hdbsqlCheckSAPHANASystemType port P h
  unfold check_saphana_system_type
  split <;> rename_i heq <;> rw [heq] at hx <;> simpa using hx

/-- Trace predicate transport for `get_saphana_nameserver_host`. -/
theorem nameserver_all (env : Env) (P : Event → Bool)
    (h : P (Event.db hdbGetNameServerhost ("3" ++ instancenumber ++ port)) = true) :
    (get_saphana_nameserver_host env).2.all P = true := by
  have hx := exec_all env hdbGetNameServerhost port P h
  unfold get_saphana_nameserver_host
  split <;> rename_i heq <;> rw [heq] at hx
  · simpa using hx
  · simpa using hx
  · simpa using hx
  · split <;> simpa using hx

/-- Trace predicate transport for topology discovery: every event it
emits is one of three fixed SELECT commands on selector 13 or the tenant
selector. -/
theorem dv_all (env : Env) (P : Event → Bool)
    (h1 : P (Event.db hdbsqlCheckSAPHANASystemType ("3" ++ instancenumber ++ port)) = true)
    (h2 : P (Event.db hdbGetNameServerhost ("3" ++ instancenumber ++ port)) = true)
    (h3 : P (Event.db hdbGetHANADataVolumeAndHosts ("3" ++ instancenumber ++ "13")) = true)
    (h4 : P (Event.db hdbGetHANADataVolumeAndHosts ("3" ++ instancenumber ++ port)) = true) :
    (get_saphana_data_volume_and_hosts env).2.all P = true := by
  have hc := check_all env P h1
  have hn := nameserver_all env P h2
  have he3 := exec_all env hdbGetHANADataVolumeAndHosts "13" P h3
  have he4 := exec_all env hdbGetHANADataVolumeAndHosts port P h4
  unfold get_saphana_data_volume_and_hosts
  split <;> rename_i heq <;> rw [heq] at hc
  · simpa using hc
  · split <;> rename_i heq2 <;> rw [heq2] at hn
    · simp only [List.all_append, Bool.and_eq_true]
      exact ⟨by simpa using hc, by simpa using hn⟩
    · simp only [List.all_append, Bool.and_eq_true]
      exact ⟨by simpa using hc, by simpa using hn⟩
    · split <;> rename_i heq3 <;> rw [heq3] at he3
      simp only [List.all_append, Bool.and_eq_true]
      exact ⟨⟨by simpa using hc, by simpa using hn⟩, by simpa using he3⟩
  · split <;> rename_i heq4 <;> rw [heq4] at he4
    simp only [List.all_append, Bool.and_eq_true]
    exact ⟨by simpa using hc, by simpa using he4⟩

/-- The whole run always dies with NameError (preparation raises before
binding `saphana_backup_id`, and the bare handler then reads the unbound
name), and its trace is exactly the discovery trace. -/
theorem main_result (env : Env) :
    (main_workflow env).1 = Except.error PyErr.nameError ∧
    (main_workflow env).2 = (get_saphana_data_volume_and_hosts env).2 := by
  unfold main_workflow
  cases hd : get_saphana_data_volume_and_hosts env with
  | mk r t =>
    cases r with
    | error e => exact ⟨rfl, rfl⟩
    | ok hv => simp [prepare_saphana_storage_snapshot]

end SapHana

namespace SapHana

/-- A successful freeze emits exactly one glued fsfreeze command. -/
theorem freeze_ok_shape {env : Env} {h : String} {m : Option String} {u : Unit} {t : List Event}
    (hf : freeze_filesystem env h m = (Except.ok u, t)) :
    t = [Event.ssh h ("/sbin/fsfreeze --freeze" ++ pyStr m)] := by
  unfold freeze_filesystem at hf
  split at hf
  · injection hf with h1 h2
    exact h2.symm
  · simp at hf

/-- A successful unfreeze emits exactly one glued fsfreeze command. -/
theorem unfreeze_ok_shape {env : Env} {h : String} {m : Option String} {u : Unit} {t : List Event}
    (hf : unfreeze_filesystem env h m = (Except.ok u, t)) :
    t = [Event.ssh h ("/sbin/fsfreeze --unfreeze" ++ pyStr m)] := by
  unfold unfreeze_filesystem at hf
  split at hf
  · injection hf with h1 h2
    exact h2.symm
  · simp at hf

/-- A successful serial resolution emits exactly one lookup event. -/
theorem serial_ok_shape {env : Env} {h : String} {m : Option String} {s : String} {t : List Event}
    (hs : get_volume_serialno env h m = (Except.ok s, t)) :
    t = [Event.serialLookup h (pyStr m)] := by
  unfold get_volume_serialno at hs
  split at hs
  · split at hs
    · simp at hs
    · injection hs with h1 h2
      exact h2.symm
  · simp at hs

/-- A scan that returns a snapshot serial emits exactly one array
snapshot request tagged with the suffix. -/
theorem fa_scan_ok_shape {env : Env} {sn sfx : String} :
    ∀ {vs : List FAVolume} {x : String} {t : List Event},
      fa_vol_scan env sn sfx vs = (Except.ok (some x), t) →
      ∃ n, t = [Event.arraySnap n sfx] := by
  intro vs
  induction vs with
  | nil =>
    intro x t hsc
    simp [fa_vol_scan] at hsc
  | cons v rest ih =>
    intro x t hsc
    unfold fa_vol_scan at hsc
    split at hsc
    · injection hsc with h1 h2
      exact ⟨v.name, h2.symm⟩
    · exact ih hsc

/-- A snapshot call that returns a serial emits exactly one array
snapshot request tagged with the suffix. -/
theorem create_ok_shape {env : Env} {sn sfx x : String} {t : List Event}
    (hc : create_flasharray_volume_snapshot env sn sfx = (Except.ok (some x), t)) :
    ∃ n, t = [Event.arraySnap n sfx] := by
  unfold create_flasharray_volume_snapshot at hc
  split at hc
  · exact fa_scan_ok_shape hc
  · simp at hc

/-- Freeze/unfreeze counts agree on the five-event trace of one
successfully processed volume, for every queried host and mount. -/
theorem counts_single_volume (host pmsg smount n sfx : String) (mount : Option String)
    (h' : String) (m' : Option String) :
    countFreeze ([Event.ssh host ("/sbin/fsfreeze --freeze" ++ pyStr mount)]
        ++ (Event.print pmsg :: ([Event.serialLookup host smount]
          ++ ([Event.arraySnap n sfx]
            ++ [Event.ssh host ("/sbin/fsfreeze --unfreeze" ++ pyStr mount)])))) h' m' =
    countUnfreeze ([Event.ssh host ("/sbin/fsfreeze --freeze" ++ pyStr mount)]
        ++ (Event.print pmsg :: ([Event.serialLookup host smount]
          ++ ([Event.arraySnap n sfx]
            ++ [Event.ssh host ("/sbin/fsfreeze --unfreeze" ++ pyStr mount)])))) h' m' := by
  have hfu : Event.ssh host ("/sbin/fsfreeze --unfreeze" ++ pyStr mount)
      ≠ Event.ssh h' ("/sbin/fsfreeze --freeze" ++ pyStr m') := by
    intro hh
    injection hh with a b
    exact fz_ne_ufz (pyStr m') (pyStr mount) b.symm
  have huf : Event.ssh host ("/sbin/fsfreeze --freeze" ++ pyStr mount)
      ≠ Event.ssh h' ("/sbin/fsfreeze --unfreeze" ++ pyStr m') := by
    intro hh
    injection hh with a b
    exact fz_ne_ufz (pyStr mount) (pyStr m') b
  unfold countFreeze countUnfreeze
  simp only [List.count_append, List.count_cons, List.count_nil, count_one]
  simp [Event.ssh.injEq, strApp_cancel_iff, hfu, huf]

/-- A successful snapshot step emits the array snapshot request and then
the unfreeze, in that order. -/
theorem snap_step_ok_shape {env : Env} {host mp sfx acc serial vres : String} {t : List Event}
    (h : volume_snap_step env host mp sfx acc serial = (Except.ok vres, t)) :
    ∃ n, t = [Event.arraySnap n sfx]
      ++ [Event.ssh host ("/sbin/fsfreeze --unfreeze" ++ pyStr (some mp))] := by
  cases hcr : create_flasharray_volume_snapshot env serial sfx with
  | mk cr t3 =>
    cases huf : unfreeze_filesystem env host (some mp) with
    | mk ur t4 =>
      unfold volume_snap_step at h
      rw [hcr] at h
      cases cr with
      | error e => simp at h
      | ok co =>
        cases co with
        | none => simp at h
        | some snapserial =>
          dsimp only at h
          rw [huf] at h
          cases ur with
          | error e2 => simp at h
          | ok u =>
            dsimp only at h
            injection h with h1 h2
            obtain ⟨n, hn⟩ := create_ok_shape hcr
            refine ⟨n, ?_⟩
            rw [← h2, hn, unfreeze_ok_shape huf]

/-- A successful volume tail emits the progress print, the serial lookup,
the array snapshot and the unfreeze, in that order. -/
theorem volume_tail_ok_shape {env : Env} {bid : Option String} {acc host mp vres : String}
    {t : List Event}
    (h : volume_tail env bid acc host mp = (Except.ok vres, t)) :
    ∃ pm n, t = Event.print pm :: ([Event.serialLookup host (pyStr (some mp))]
      ++ ([Event.arraySnap n (mk_vol_snap_suffix host mp bid)]
        ++ [Event.ssh host ("/sbin/fsfreeze --unfreeze" ++ pyStr (some mp))])) := by
  cases hsl : get_volume_serialno env host (some mp) with
  | mk sr t2 =>
    unfold volume_tail at h
    rw [hsl] at h
    cases sr with
    | error e => simp at h
    | ok serial =>
      dsimp only at h
      cases hss : volume_snap_step env host mp (mk_vol_snap_suffix host mp bid) acc serial with
      | mk r t34 =>
        rw [hss] at h
        cases r with
        | error e => simp at h
        | ok vv =>
          dsimp only at h
          injection h with h1 h2
          obtain ⟨n, hn⟩ := snap_step_ok_shape hss
          refine ⟨"Creating storage snapshot for mount point : " ++ stripSlashes mp ++
            "on host : " ++ host, n, ?_⟩
          rw [← h2, serial_ok_shape hsl, hn]

/-- A successfully processed volume emits freeze, print, serial lookup,
array snapshot and unfreeze for a single (host, mount) pair. -/
theorem process_volume_ok_shape {env : Env} {bid : Option String} {acc : String} {r : Row}
    {v : String} {t : List Event}
    (hp : process_volume env bid acc r = (Except.ok v, t)) :
    ∃ h0 mp pm n,
      t = [Event.ssh (h0 ++ domainname) ("/sbin/fsfreeze --freeze" ++ pyStr (some mp))]
        ++ (Event.print pm :: ([Event.serialLookup (h0 ++ domainname) (pyStr (some mp))]
          ++ ([Event.arraySnap n (mk_vol_snap_suffix (h0 ++ domainname) mp bid)]
            ++ [Event.ssh (h0 ++ domainname) ("/sbin/fsfreeze --unfreeze" ++ pyStr (some mp))]))) := by
  cases hg0 : r[0]? with
  | none =>
    unfold process_volume at hp
    rw [hg0] at hp
    simp at hp
  | some c0 =>
    cases c0 with
    | none =>
      unfold process_volume at hp
      rw [hg0] at hp
      simp at hp
    | some h0 =>
      cases hg2 : r[2]? with
      | none =>
        unfold process_volume at hp
        rw [hg0, hg2] at hp
        simp at hp
      | some mount =>
        unfold process_volume at hp
        rw [hg0, hg2] at hp
        dsimp only at hp
        cases hfz : freeze_filesystem env (h0 ++ domainname) mount with
        | mk fr t1 =>
          rw [hfz] at hp
          cases fr with
          | error e => simp at hp
          | ok u =>
            dsimp only at hp
            cases mount with
            | none => simp at hp
            | some mp =>
              dsimp only at hp
              cases htl : volume_tail env bid acc (h0 ++ domainname) mp with
              | mk tr trest =>
                rw [htl] at hp
                cases tr with
                | error e => simp at hp
                | ok vv =>
                  dsimp only at hp
                  injection hp with h1 h2
                  obtain ⟨pm, n, hsh⟩ := volume_tail_ok_shape htl
                  refine ⟨h0, mp, pm, n, ?_⟩
                  rw [← h2, freeze_ok_shape hfz, hsh]

/-- One successfully processed volume freezes and unfreezes the same
(host, mount) exactly once each: its trace balances for every query. -/
theorem process_volume_counts {env : Env} {bid : Option String} {acc : String} {r : Row}
    {v : String} {t : List Event}
    (hp : process_volume env bid acc r = (Except.ok v, t)) :
    ∀ (h' : String) (m' : Option String), countFreeze t h' m' = countUnfreeze t h' m' := by
  intro h' m'
  obtain ⟨h0, mp, pm, n, ht⟩ := process_volume_ok_shape hp
  subst ht
  exact counts_single_volume (h0 ++ domainname) pm (pyStr (some mp)) n
    (mk_vol_snap_suffix (h0 ++ domainname) mp bid) (some mp) h' m'

end SapHana

namespace SapHana

/-- Whatever a freeze call does, it emits no database event. -/
theorem freeze_no_db (env : Env) (h : String) (m : Option String) :
    (freeze_filesystem env h m).2.all (fun ev => !isDbEvent ev) = true := by
  unfold freeze_filesystem
  split <;> simp [isDbEvent]

/-- Whatever an unfreeze call does, it emits no database event. -/
theorem unfreeze_no_db (env : Env) (h : String) (m : Option String) :
    (unfreeze_filesystem env h m).2.all (fun ev => !isDbEvent ev) = true := by
  unfold unfreeze_filesystem
  split <;> simp [isDbEvent]

/-- Serial resolution emits no database event. -/
theorem serial_no_db (env : Env) (h : String) (m : Option String) :
    (get_volume_serialno env h m).2.all (fun ev => !isDbEvent ev) = true := by
  unfold get_volume_serialno
  split
  · split <;> simp [isDbEvent]
  · simp

/-- The array volume scan emits no database event. -/
theorem fa_scan_no_db (env : Env) (sn sfx : String) :
    ∀ vs : List FAVolume, (fa_vol_scan env sn sfx vs).2.all (fun ev => !isDbEvent ev) = true := by
  intro vs
  induction vs with
  | nil => simp [fa_vol_scan]
  | cons v rest ih =>
    unfold fa_vol_scan
    split
    · simp [isDbEvent]
    · exact ih

/-- The snapshot call emits no database event. -/
theorem create_no_db (env : Env) (sn sfx : String) :
    (create_flasharray_volume_snapshot env sn sfx).2.all (fun ev => !isDbEvent ev) = true := by
  unfold create_flasharray_volume_snapshot
  split
  · exact fa_scan_no_db env sn sfx env.faVolumes
  · simp

/-- The snapshot step emits no database event. -/
theorem snap_step_no_db (env : Env) (host mp sfx acc serial : String) :
    (volume_snap_step env host mp sfx acc serial).2.all (fun ev => !isDbEvent ev) = true := by
  have hc := create_no_db env serial sfx
  have hu := unfreeze_no_db env host (some mp)
  unfold volume_snap_step
  split
  · rename_i heq
    rw [heq] at hc
    simpa using hc
  · rename_i heq
    rw [heq] at hc
    simpa using hc
  · rename_i heq
    rw [heq] at hc
    split <;> rename_i heq2 <;> rw [heq2] at hu <;>
      simp only [List.all_append, Bool.and_eq_true] <;>
      exact ⟨by simpa using hc, by simpa using hu⟩

/-- The volume tail emits no database event. -/
theorem volume_tail_no_db (env : Env) (bid : Option String) (acc host mp : String) :
    (volume_tail env bid acc host mp).2.all (fun ev => !isDbEvent ev) = true := by
  have hs := serial_no_db env host (some mp)
  unfold volume_tail
  split
  · rename_i heq
    rw [heq] at hs
    simp only [List.all_cons, Bool.and_eq_true]
    exact ⟨by simp [isDbEvent], by simpa using hs⟩
  · rename_i serial t2 heq
    rw [heq] at hs
    split
    rename_i r t34 heq2
    have ht := snap_step_no_db env host mp (mk_vol_snap_suffix host mp bid) acc serial
    rw [heq2] at ht
    simp only [List.all_cons, List.all_append, Bool.and_eq_true]
    exact ⟨by simp [isDbEvent], by simpa using hs, by simpa using ht⟩

/-- Processing one volume emits no database event, whatever happens. -/
theorem process_volume_no_db (env : Env) (bid : Option String) (acc : String) (r : Row) :
    (process_volume env bid acc r).2.all (fun ev => !isDbEvent ev) = true := by
  cases hg0 : r[0]? with
  | none => simp [process_volume, hg0]
  | some c0 =>
    cases c0 with
    | none => simp [process_volume, hg0]
    | some h0 =>
      cases hg2 : r[2]? with
      | none => simp [process_volume, hg0, hg2]
      | some mount =>
        cases hfz : freeze_filesystem env (h0 ++ domainname) mount with
        | mk fr t1 =>
          have hf := freeze_no_db env (h0 ++ domainname) mount
          rw [hfz] at hf
          cases fr with
          | error e => simp [process_volume, hg0, hg2, hfz]; simpa using hf
          | ok u =>
            cases mount with
            | none => simp [process_volume, hg0, hg2, hfz]; simpa using hf
            | some mp =>
              cases htl : volume_tail env bid acc (h0 ++ domainname) mp with
              | mk tr trest =>
                have htn := volume_tail_no_db env bid acc (h0 ++ domainname) mp
                rw [htl] at htn
                simp only [process_volume, hg0, hg2, hfz, htl]
                simp only [List.all_append, Bool.and_eq_true]
                exact ⟨by simpa using hf, by simpa using htn⟩

/-- Claim C2 (amended): for every volume location processed by the
per-volume loop, the freeze and unfreeze counts for its (host, mount
path) are equal whenever the loop completes normally; when the
serial-resolution or snapshot step raises, the volume's unfreeze is
skipped and the loop aborts (see the counterexample theorem). -/
theorem c2_amended (env : Env) (bid : Option String) :
    ∀ (rows : List Row) (acc v : String) (t : List Event),
      volume_loop env bid rows acc = (Except.ok v, t) →
      ∀ (h' : String) (m' : Option String), countFreeze t h' m' = countUnfreeze t h' m' := by
  intro rows
  induction rows with
  | nil =>
    intro acc v t h h' m'
    unfold volume_loop at h
    injection h with h1 h2
    subst h2
    rfl
  | cons r rest ih =>
    intro acc v t h h' m'
    cases hpv : process_volume env bid acc r with
    | mk pr pt =>
      unfold volume_loop at h
      rw [hpv] at h
      cases pr with
      | error e => simp at h
      | ok vsi =>
        dsimp only at h
        cases hrec : volume_loop env bid rest vsi with
        | mk rr rt =>
          rw [hrec] at h
          cases rr with
          | error e2 => simp at h
          | ok v2 =>
            dsimp only at h
            injection h with h1 h2
            subst h2
            unfold countFreeze countUnfreeze
            simp only [List.count_append]
            have hone := process_volume_counts hpv h' m'
            have hrest := ih vsi v2 rt hrec h' m'
            unfold countFreeze countUnfreeze at hone hrest
            omega

end SapHana

namespace SapHana

/-- Claim C1 (code divergence): the claim says a run whose marker
preparation yields a backup id always issues exactly one terminal
disposition and that uncaught failures still lead to an abandon attempt
before propagation.  In the code, preparation always raises TypeError at
the stray statement of line 164, so no backup id is ever produced; the
bare handler then raises NameError reading the unassigned variable; and
the abandon routine itself raises TypeError (line 190) before issuing any
command.  Hence every run ends in NameError, its trace contains no CLOSE
SNAPSHOT command, and the abandon attempt is inert. -/
theorem c1_no_disposition_ever_issued (env : Env) (b : Option String) (e : String) :
    (main_workflow env).1 = Except.error PyErr.nameError ∧
    (main_workflow env).2.all (fun ev => !isDbClose ev) = true ∧
    abandon_saphana_storage_snapshot env b e = (Except.error PyErr.typeError, []) := by
  refine ⟨(main_result env).1, ?_, rfl⟩
  rw [(main_result env).2]
  exact dv_all env _ (by decide) (by decide) (by decide) (by decide)

/-- Claim C2 counterexample: with one volume whose serial matches no
array volume, the snapshot step yields Python `None`, the concatenation
raises TypeError, and the loop aborts after the freeze: one freeze, zero
unfreezes for that (host, mount) — refuting pairing "regardless of
whether the snapshot step raises". -/
theorem c2_counterexample :
    volume_loop envNoFA (some "4711") [row10] "" =
      (Except.error PyErr.typeError, c2_fail_trace) ∧
    countFreeze c2_fail_trace "SHN2puredoes.local" (some "/hana/data/mnt00001") = 1 ∧
    countUnfreeze c2_fail_trace "SHN2puredoes.local" (some "/hana/data/mnt00001") = 0 := by
  refine ⟨by decide, by decide, by decide⟩

/-- Witness for the amended claim C2 at a concrete successful run. -/
theorem c2_amended_witness :
    volume_loop envFA (some "4711") [row10] "" =
      (Except.ok "-SAPHANA-SHN2puredoes.local-hanadatamnt00001-4711-FA-SNAP-1",
        [Event.ssh "SHN2puredoes.local" "/sbin/fsfreeze --freeze/hana/data/mnt00001",
         Event.print "Creating storage snapshot for mount point : hanadatamnt00001on host : SHN2puredoes.local",
         Event.serialLookup "SHN2puredoes.local" "/hana/data/mnt00001",
         Event.arraySnap "SH1-data-1" "SAPHANA-SHN2puredoes.local-hanadatamnt00001-4711",
         Event.ssh "SHN2puredoes.local" "/sbin/fsfreeze --unfreeze/hana/data/mnt00001"]) ∧
    countFreeze
        [Event.ssh "SHN2puredoes.local" "/sbin/fsfreeze --freeze/hana/data/mnt00001",
         Event.print "Creating storage snapshot for mount point : hanadatamnt00001on host : SHN2puredoes.local",
         Event.serialLookup "SHN2puredoes.local" "/hana/data/mnt00001",
         Event.arraySnap "SH1-data-1" "SAPHANA-SHN2puredoes.local-hanadatamnt00001-4711",
         Event.ssh "SHN2puredoes.local" "/sbin/fsfreeze --unfreeze/hana/data/mnt00001"]
        "SHN2puredoes.local" (some "/hana/data/mnt00001") =
      countUnfreeze
        [Event.ssh "SHN2puredoes.local" "/sbin/fsfreeze --freeze/hana/data/mnt00001",
         Event.print "Creating storage snapshot for mount point : hanadatamnt00001on host : SHN2puredoes.local",
         Event.serialLookup "SHN2puredoes.local" "/hana/data/mnt00001",
         Event.arraySnap "SH1-data-1" "SAPHANA-SHN2puredoes.local-hanadatamnt00001-4711",
         Event.ssh "SHN2puredoes.local" "/sbin/fsfreeze --unfreeze/hana/data/mnt00001"]
        "SHN2puredoes.local" (some "/hana/data/mnt00001") :=
  ⟨by decide,
    c2_amended envFA (some "4711") [row10] ""
      "-SAPHANA-SHN2puredoes.local-hanadatamnt00001-4711-FA-SNAP-1"
      [Event.ssh "SHN2puredoes.local" "/sbin/fsfreeze --freeze/hana/data/mnt00001",
       Event.print "Creating storage snapshot for mount point : hanadatamnt00001on host : SHN2puredoes.local",
       Event.serialLookup "SHN2puredoes.local" "/hana/data/mnt00001",
       Event.arraySnap "SH1-data-1" "SAPHANA-SHN2puredoes.local-hanadatamnt00001-4711",
       Event.ssh "SHN2puredoes.local" "/sbin/fsfreeze --unfreeze/hana/data/mnt00001"]
      (by decide) "SHN2puredoes.local" (some "/hana/data/mnt00001")⟩

/-- Claim C3 (amended): when the snapshot step of the first volume
raises, the loop aborts at that volume — it receives no unfreeze and no
remaining volume is processed — and the handler's abandon attempt itself
raises before issuing any database command, so no Abandoned disposition
is recorded: the whole trace holds no database event. -/
theorem c3_amended (env : Env) (b : String) (r : Row) (rest : List Row) (e : PyErr)
    (t : List Event)
    (hp : process_volume env (some b) "" r = (Except.error e, t)) :
    workflow_from_marker env (some (r :: rest)) (some b) =
      (Except.error PyErr.typeError,
        t ++ [Event.print ("Abandoning storage snapshot with SAP HANA Backup ID : " ++ b)]) ∧
    (t ++ [Event.print ("Abandoning storage snapshot with SAP HANA Backup ID : " ++ b)]).all
      (fun ev => !isDbEvent ev) = true := by
  constructor
  · have hloop : volume_loop env (some b) (r :: rest) "" = (Except.error e, t) := by
      unfold volume_loop
      rw [hp]
    simp [workflow_from_marker, hloop, abandon_saphana_storage_snapshot, pyStr]
  · have hn := process_volume_no_db env (some b) "" r
    rw [hp] at hn
    simp only [List.all_append, Bool.and_eq_true]
    exact ⟨by simpa using hn, by simp [isDbEvent]⟩

/-- Claim C3 counterexample: two volumes, the first volume's snapshot
step fails.  The run aborts with TypeError; the second volume is never
frozen, the first is never unfrozen, and no database command — in
particular no Abandoned disposition — is issued. -/
theorem c3_counterexample :
    workflow_from_marker envNoFA (some [row10, rowB]) (some "4711") =
      (Except.error PyErr.typeError, c3_trace) ∧
    countFreeze c3_trace "SHN3puredoes.local" (some "/hana/data/mnt00002") = 0 ∧
    countUnfreeze c3_trace "SHN2puredoes.local" (some "/hana/data/mnt00001") = 0 ∧
    c3_trace.all (fun ev => !isDbEvent ev) = true := by
  refine ⟨by decide, by decide, by decide, by decide⟩

/-- Witness for the amended claim C3 at a concrete failing run. -/
theorem c3_amended_witness :
    workflow_from_marker envNoFA (some [row10, rowB]) (some "4711") =
      (Except.error PyErr.typeError,
        [Event.ssh "SHN2puredoes.local" "/sbin/fsfreeze --freeze/hana/data/mnt00001",
         Event.print "Creating storage snapshot for mount point : hanadatamnt00001on host : SHN2puredoes.local",
         Event.serialLookup "SHN2puredoes.local" "/hana/data/mnt00001"]
          ++ [Event.print ("Abandoning storage snapshot with SAP HANA Backup ID : " ++ "4711")]) ∧
    ([Event.ssh "SHN2puredoes.local" "/sbin/fsfreeze --freeze/hana/data/mnt00001",
      Event.print "Creating storage snapshot for mount point : hanadatamnt00001on host : SHN2puredoes.local",
      Event.serialLookup "SHN2puredoes.local" "/hana/data/mnt00001"]
        ++ [Event.print ("Abandoning storage snapshot with SAP HANA Backup ID : " ++ "4711")]).all
      (fun ev => !isDbEvent ev) = true :=
  c3_amended envNoFA "4711" row10 [rowB] PyErr.typeError
    [Event.ssh "SHN2puredoes.local" "/sbin/fsfreeze --freeze/hana/data/mnt00001",
     Event.print "Creating storage snapshot for mount point : hanadatamnt00001on host : SHN2puredoes.local",
     Event.serialLookup "SHN2puredoes.local" "/hana/data/mnt00001"]
    (by decide)

/-- Claim C4 (code divergence): the claim says the preparation routine
issues the full-system CREATE SNAPSHOT command, reads the catalog and
returns the backup id, failing loudly on an empty catalog.  In the code,
line 163 ends the statement and line 164's stray `+ dt_string +"';"`
raises TypeError first: the routine always raises before issuing any
database command and never returns an id (and the single-tenant branch
would additionally skip the catalog lookup, lines 171-173). -/
theorem c4_prepare_always_raises (env : Env) :
    prepare_saphana_storage_snapshot env = (Except.error PyErr.typeError, []) := rfl

/-- Claim C5 (amended): the scan lowercases only the listed volume's
serial and tests substring containment in the supplied serial taken
verbatim; the first such match is snapshotted and its serial returned;
when no volume matches, the call returns Python `None` silently with no
array request — there is no VolumeNotFoundError. -/
theorem c5_amended (env : Env) (serialnumber snapshot_suffix : String)
    (ha : env.arrayAuthOk = true) :
    match env.faVolumes.find? (fun v => pyIn (strToLower v.serial) serialnumber) with
    | none => create_flasharray_volume_snapshot env serialnumber snapshot_suffix =
        (Except.ok none, [])
    | some v => create_flasharray_volume_snapshot env serialnumber snapshot_suffix =
        (Except.ok (some (env.faSnapSerial v.name snapshot_suffix)),
          [Event.arraySnap v.name snapshot_suffix]) := by
  unfold create_flasharray_volume_snapshot
  rw [if_pos ha]
  generalize env.faVolumes = vs
  induction vs with
  | nil => simp [fa_vol_scan]
  | cons v rest ih =>
    cases hm : pyIn (strToLower v.serial) serialnumber with
    | true => simp [List.find?, hm, fa_vol_scan]
    | false =>
      simp only [List.find?, hm]
      simpa [fa_vol_scan, hm] using ih

/-- Claim C5 counterexample: one listed volume with serial "ABC" and
supplied serial "ABC": the two are equal case-insensitively (both lower
to "abc"), yet the call matches nothing — it compares the lowercased
volume serial against the raw input — and silently returns Python `None`
with no error and no array request. -/
theorem c5_counterexample :
    create_flasharray_volume_snapshot env5 "ABC" "sfx" = (Except.ok none, []) ∧
    pyIn (strToLower "ABC") (strToLower "ABC") = true ∧
    pyIn (strToLower "ABC") "ABC" = false := by
  refine ⟨by decide, by decide, by decide⟩

/-- Witness for the amended claim C5: a volume whose lowercased serial is
contained in the supplied serial is snapshotted and its serial returned. -/
theorem c5_amended_witness :
    env5.arrayAuthOk = true ∧
    (match env5.faVolumes.find? (fun v => pyIn (strToLower v.serial) "xabcy") with
     | none => create_flasharray_volume_snapshot env5 "xabcy" "sfx" = (Except.ok none, [])
     | some v => create_flasharray_volume_snapshot env5 "xabcy" "sfx" =
         (Except.ok (some (env5.faSnapSerial v.name "sfx")),
           [Event.arraySnap v.name "sfx"])) :=
  ⟨rfl, c5_amended env5 "xabcy" "sfx" rfl⟩

/-- Claim C6 (code divergence): every database command that is actually
executed uses a port value concatenated from the prefix "3", the instance
number and a selector that is 13 or the configured tenant selector.  But
the enumerated commands — prepare, catalog lookup, confirm, abandon —
are never executed at all: their functions raise TypeError at the stray
statements (lines 164, 179, 190) before issuing anything. -/
theorem c6_portvalue_selector (env : Env) (b : Option String) (e : String) :
    (main_workflow env).2.all portOkEvent = true ∧
    confirm_saphana_storage_snapshot env b e = (Except.error PyErr.typeError, []) := by
  refine ⟨?_, rfl⟩
  rw [(main_result env).2]
  exact dv_all env _ (by decide) (by decide) (by decide) (by decide)

/-- Claim C7 (amended): the suffix is the stated composition, but slash
stripping makes it non-injective: for a fixed host and marker id, two
mount paths receive the same suffix exactly when they agree after
removing every '/'. -/
theorem c7_amended (host m1 m2 : String) (bid : Option String) :
    mk_vol_snap_suffix host m1 bid = mk_vol_snap_suffix host m2 bid ↔
      stripSlashes m1 = stripSlashes m2 := by
  constructor
  · intro h
    unfold mk_vol_snap_suffix at h
    have hd := congrArg String.data h
    simp only [String.data_append] at hd
    have h1 := List.append_cancel_right hd
    have h2 := List.append_cancel_right h1
    have h3 := List.append_cancel_left h2
    exact str_data_inj h3
  · intro h
    unfold mk_vol_snap_suffix
    rw [h]

/-- Claim C7 counterexample: the distinct pairs ("node1", "/bc") and
("node1", "b/c") receive the same suffix under marker id 4711. -/
theorem c7_counterexample :
    mk_vol_snap_suffix "node1" "/bc" (some "4711") =
      mk_vol_snap_suffix "node1" "b/c" (some "4711") ∧
    ("/bc" : String) ≠ "b/c" := by
  refine ⟨by decide, by decide⟩

/-- Claim C8 (code divergence): with zero discovered volumes the claim
says the run confirms immediately as a vacuous success.  In the code the
run never reaches the loop or the guard: preparation raises TypeError and
the handler raises NameError, so the run crashes with only the two
discovery SELECTs executed and no CLOSE SNAPSHOT command issued. -/
theorem c8_zero_volumes_crashes :
    main_workflow envNoFA =
      (Except.error PyErr.nameError,
        [Event.db hdbsqlCheckSAPHANASystemType "30015",
         Event.db hdbGetHANADataVolumeAndHosts "30015"]) := by
  decide

/-- Claim C9 (code divergence): the claim says the remote command names
fsfreeze with the flag and the mount path as a separate argument.  The
code concatenates the flag directly to the path with no separator, so the
issued string is "/sbin/fsfreeze --freeze/hana/data/mnt00001", not the
space-separated form. -/
theorem c9_fsfreeze_flag_glued :
    freeze_filesystem envFA "SHN2.puredoes.local" (some "/hana/data/mnt00001") =
      (Except.ok (),
        [Event.ssh "SHN2.puredoes.local" "/sbin/fsfreeze --freeze/hana/data/mnt00001"]) ∧
    unfreeze_filesystem envFA "SHN2.puredoes.local" (some "/hana/data/mnt00001") =
      (Except.ok (),
        [Event.ssh "SHN2.puredoes.local" "/sbin/fsfreeze --unfreeze/hana/data/mnt00001"]) ∧
    ("/sbin/fsfreeze --freeze/hana/data/mnt00001" : String) ≠
      "/sbin/fsfreeze --freeze /hana/data/mnt00001" := by
  refine ⟨by decide, by decide, by decide⟩

/-- Claim C10 (code divergence): when the per-volume loop completes
normally under an open marker, the guard of line 234 is indeed true and
the Confirm branch is entered (its print appears, the non-exception
Abandon branch is not taken), but the run does not end Confirmed:
`confirm_saphana_storage_snapshot` raises TypeError at line 179 before
issuing its command, the handler's abandon attempt raises likewise, and
the run crashes with no CLOSE SNAPSHOT command in the trace. -/
theorem c10_completed_run_not_confirmed :
    volume_loop envFA (some "4711") [row10] "" =
      (Except.ok "-SAPHANA-SHN2puredoes.local-hanadatamnt00001-4711-FA-SNAP-1",
        c10_trace.take 5) ∧
    workflow_from_marker envFA (some [row10]) (some "4711") =
      (Except.error PyErr.typeError, c10_trace) ∧
    c10_trace.all (fun ev => !isDbClose ev) = true := by
  refine ⟨by decide, by decide, by decide⟩

end SapHana
